import Mathlib

/-!
Verification of the uniapp-error-monitor core: a shallow embedding of the
error-capture / statistics / delivery / retry subsystem, translated from the
JavaScript sources, together with proofs about the spec's testable claims.

Sources embedded here:
  * the `ErrorMonitor` class exporting `init` / `reportError` / `_sendError` /
    `_sendToWebhook` / `_updateErrorStats` / `_serializeError` /
    `_formatErrorMessage` (referred to below as the "part_002 monitor"),
  * the alternative `ErrorMonitor` class with `initErrorMonitor` and the
    retrying `_sendErrorToWebhook` (referred to below as the "part_003
    monitor"),
  * the library boundary `src/index.js` and the utility `serializeError`.
-/

namespace UniappErrorMonitor

/-- Model of a JavaScript runtime value, restricted to the shapes the
monitor manipulates.  `error` models an `Error` instance (with `name`,
`message`, `stack` own properties plus further own enumerable fields such as
`statusCode` that callers attach).  `cyc` marks the occurrence of a circular
reference inside an object graph: a tree cannot literally point back at an
ancestor, so the marker stands for the back-edge (the one feature of such a
value the code observes is that `JSON.stringify` throws on it). -/
inductive JSVal where
  | null
  | undefined
  | nan
  | bool (b : Bool)
  | num (n : Int)
  | str (s : String)
  | obj (fields : List (String × JSVal))
  | error (name message stack : String) (fields : List (String × JSVal))
  | cyc
deriving Repr

/-- JavaScript truthiness (`if (x)`): `null`, `undefined`, `NaN`, `false`,
`0` and the empty string are falsy, everything else (including every object)
is truthy. -/
def truthy : JSVal → Bool
  | .null => false
  | .undefined => false
  | .nan => false
  | .bool b => b
  | .num n => n ≠ 0
  | .str s => s ≠ ""
  | .obj _ => true
  | .error _ _ _ _ => true
  | .cyc => true

/-- JavaScript `a || b`. -/
def jsOr (a b : JSVal) : JSVal := if truthy a then a else b

/-- JavaScript `typeof v === "object"` (true for plain objects, `Error`
instances, circular objects and `null`). -/
def isObjectType : JSVal → Bool
  | .obj _ => true
  | .error _ _ _ _ => true
  | .cyc => true
  | .null => true
  | _ => false

/-- `typeof v === "object" && v !== null`, the guard used by
`_serializeError`. -/
def isObjectNonNull (v : JSVal) : Bool := isObjectType v && !(v matches .null)

/-- Is the value an `Error` instance (`v instanceof Error`)? -/
def isErrorInstance : JSVal → Bool
  | .error _ _ _ _ => true
  | _ => false

/-- Is the value `null` or `undefined` (the values on which property access
throws)? -/
def isNullish : JSVal → Bool
  | .null => true
  | .undefined => true
  | _ => false

/-- First-match lookup in an object's own-field list; a missing key reads as
`undefined`, as in JavaScript. -/
def fieldsLookup : List (String × JSVal) → String → JSVal
  | [], _ => .undefined
  | (k, v) :: rest, key => if k = key then v else fieldsLookup rest key

/-- Total property read `v[k]` for values on which it cannot throw.
`Error` instances expose `name`, `message`, `stack` and then their extra own
fields; primitives have none of the accessed properties and read as
`undefined`. -/
def getFieldD (v : JSVal) (k : String) : JSVal :=
  match v with
  | .obj fs => fieldsLookup fs k
  | .error n m s fs =>
      if k = "name" then .str n
      else if k = "message" then .str m
      else if k = "stack" then .str s
      else fieldsLookup fs k
  | _ => .undefined

/-- Property read `v[k]` with the JavaScript exception behaviour: reading a
property of `null` or `undefined` throws a `TypeError`. -/
def getProp (v : JSVal) (k : String) : Except String JSVal :=
  match v with
  | .null => .error ("TypeError: Cannot read properties of null (reading " ++ k ++ ")")
  | .undefined => .error ("TypeError: Cannot read properties of undefined (reading " ++ k ++ ")")
  | _ => .ok (getFieldD v k)

/-- JavaScript `ToNumber` on the values reachable in the stats object,
returning `none` for NaN results. Strings and objects that the monitor never
stores in numeric positions coerce to NaN here. -/
def jsToNumberOpt : JSVal → Option Int
  | .num n => some n
  | .null => some 0
  | .bool true => some 1
  | .bool false => some 0
  | .nan => none
  | .undefined => none
  | .str _ => none
  | .obj _ => none
  | .error _ _ _ _ => none
  | .cyc => none

/-- JavaScript `v + 1` under numeric coercion (the effect of `x++` and of
`(x || 0) + 1` on the stored value). -/
def jsIncrement (v : JSVal) : JSVal :=
  match jsToNumberOpt v with
  | some n => .num (n + 1)
  | none => .nan

/-- `Error.prototype.toString`: `name: message`, degenerating when either
part is empty. -/
def errorToString (name message : String) : String :=
  if message = "" then name
  else if name = "" then message
  else name ++ ": " ++ message

/-- JavaScript string coercion `String(v)` / template interpolation, for the
value shapes the formatter interpolates.  Plain and circular objects render
as `[object Object]`. -/
def jsDisplay : JSVal → String
  | .null => "null"
  | .undefined => "undefined"
  | .nan => "NaN"
  | .bool true => "true"
  | .bool false => "false"
  | .num n => toString n
  | .str s => s
  | .obj _ => "[object Object]"
  | .error n m _ _ => errorToString n m
  | .cyc => "[object Object]"

/-- JSON string literal for an object key.  The keys appearing in this code
base are plain identifiers, so no escaping is modelled. -/
def jsonQuote (s : String) : String := "\"" ++ s ++ "\""

mutual

/-- Model of `JSON.stringify(v)` (the `null, 2` pretty-printing arguments
only affect whitespace, which no claim observes, so a compact rendering is
produced).  It throws — returns `Except.error` — exactly when the value
contains a circular reference in a serialized position; properties whose
value is `undefined` are skipped, `NaN` serializes as `null`, and an `Error`
instance serializes through its extra own enumerable fields. -/
def jsonStringify : JSVal → Except String String
  | .cyc => .error "TypeError: Converting circular structure to JSON"
  | .null => .ok "null"
  | .nan => .ok "null"
  | .bool true => .ok "true"
  | .bool false => .ok "false"
  | .num n => .ok (toString n)
  | .str s => .ok (jsonQuote s)
  | .undefined => .ok "undefined"
  | .obj fs => do
      let parts ← jsonStringifyFields fs
      .ok ("\x7b" ++ String.intercalate "," parts ++ "\x7d")
  | .error _ _ _ fs => do
      let parts ← jsonStringifyFields fs
      .ok ("\x7b" ++ String.intercalate "," parts ++ "\x7d")

/-- Serialize an object's own fields in order, skipping `undefined` values
and propagating a circular-structure throw. -/
def jsonStringifyFields : List (String × JSVal) → Except String (List String)
  | [] => .ok []
  | (k, v) :: rest =>
      match v with
      | .undefined => jsonStringifyFields rest
      | _ => do
          let sv ← jsonStringify v
          let tail ← jsonStringifyFields rest
          .ok ((jsonQuote k ++ ":" ++ sv) :: tail)

end

/-- The `_serializeError(error)` method (identical in the part_002 monitor,
the part_003 monitor and the standalone utility `serializeError`): an
`Error` instance becomes a `(name || code, message, stack)` record; any other
non-null object is `JSON.stringify`ed inside a try/catch whose catch arm
falls back to `String(error)`; everything else is `String(error)`.  The
`Except` result makes every potential throw explicit: the function body
handles them all, which the theorems below make precise. -/
def serializeError (v : JSVal) : Except String JSVal :=
  match v with
  | .error n m s fs =>
      .ok (.obj [("name", jsOr (.str n) (fieldsLookup fs "code")),
                 ("message", .str m),
                 ("stack", .str s)])
  | v =>
      if isObjectNonNull v then
        match jsonStringify v with
        | .ok s => .ok (.str s)
        | .error _ => .ok (.str (jsDisplay v))
      else
        .ok (.str (jsDisplay v))

/-- The value `_serializeError` returns (it provably never throws; see the
claim-level theorem). -/
def serializeErrorVal (v : JSVal) : JSVal :=
  match serializeError v with
  | .ok r => r
  | .error _ => .undefined

/-! ## The stats aggregator

`this.errorStats` is a single JavaScript object whose properties are the
`total` field, the per-type counters, and `lastErrorTime`.  Because
`_updateErrorStats` writes `this.errorStats[type]` with a caller-supplied
string, the object must be modelled as one property map — the type tag can
alias `total` and `lastErrorTime`. -/

/-- A JavaScript object used as the stats record: an insertion-ordered
own-property list. -/
abbrev StatsObj := List (String × JSVal)

/-- Property read on the stats object. -/
def objGet : StatsObj → String → JSVal
  | [], _ => .undefined
  | (k, v) :: rest, key => if k = key then v else objGet rest key

/-- Property write on the stats object: replace the first binding of the
key, or append a fresh binding (JavaScript property-creation order). -/
def objSet : StatsObj → String → JSVal → StatsObj
  | [], key, v => [(key, v)]
  | (k, w) :: rest, key, v =>
      if k = key then (k, v) :: rest else (k, w) :: objSet rest key v

/-- The stats object the part_002 monitor's constructor builds (and that
`resetErrorStats` rebuilds): fixed counters including `manual`, `total` zero
and `lastErrorTime` null. -/
def initialStatsObj : StatsObj :=
  [("total", .num 0), ("global", .num 0), ("promise", .num 0),
   ("console", .num 0), ("miniProgram", .num 0), ("api", .num 0),
   ("network", .num 0), ("manual", .num 0), ("lastErrorTime", .null)]

/-- `_updateErrorStats(type)` of the part_002 monitor (the part_003 monitor
inlines the same three statements in `reportError`):
`this.errorStats.total++`,
`this.errorStats[type] = (this.errorStats[type] || 0) + 1`,
`this.errorStats.lastErrorTime = Date.now()` (`now` injected). -/
def updateErrorStats (o : StatsObj) (type : String) (now : Nat) : StatsObj :=
  let o1 := objSet o "total" (jsIncrement (objGet o "total"))
  let o2 := objSet o1 type (jsIncrement (jsOr (objGet o1 type) (.num 0)))
  objSet o2 "lastErrorTime" (.num now)

/-- `resetErrorStats()` of the part_002 monitor: the stats object is
replaced wholesale by a fresh literal identical to the constructor's. -/
def resetErrorStats : StatsObj := initialStatsObj

/-- `getErrorStats()` returns a shallow copy `{ ...this.errorStats }`; in
the pure model the snapshot is the same property list. -/
def getErrorStats (o : StatsObj) : StatsObj := o

/-- The property names of the stats object that are not per-type counters. -/
def reservedStatsKeys : List String := ["total", "lastErrorTime"]

/-- The fixed error-type counters the part_002 constructor and
`resetErrorStats` install. -/
def errorTypeKeys : List String :=
  ["global", "promise", "console", "miniProgram", "api", "network", "manual"]

/-- Numeric default reading of a stored value: the integer behind a number,
0 for anything that is not one. -/
def toNumD (v : JSVal) : Int :=
  match jsToNumberOpt v with
  | some n => n
  | none => 0

/-- The numeric reading of a counter property (`undefined`, i.e. a counter
never created, reads as 0, as in `(this.errorStats[type] || 0)`). -/
def counterVal (o : StatsObj) (type : String) : Int :=
  toNumD (jsOr (objGet o type) (.num 0))

/-- The sum of every per-type counter stored in the stats object (all
properties except `total` and `lastErrorTime`), reading non-numeric values
as 0. -/
def sumCounters : StatsObj → Int
  | [] => 0
  | (k, v) :: rest =>
      (if reservedStatsKeys.contains k then 0 else toNumD v) + sumCounters rest

/-- Does the stats object carry a property for the given tag at all?  After
`resetErrorStats`, a dynamically created unknown-tag counter is gone, which
this predicate makes observable. -/
def hasCounter (o : StatsObj) (type : String) : Bool :=
  !((objGet o type) matches .undefined)

/-- Replay a sequence of `(type, now)` recordings through
`_updateErrorStats`. -/
def applyRecords (recs : List (String × Nat)) (o : StatsObj) : StatsObj :=
  recs.foldl (fun acc r => updateErrorStats acc r.1 r.2) o

/-- The stats-object invariant: the `total` property is a number equal to
the sum of every per-type counter, and every counter property is either
absent or a number. -/
def GoodStats (o : StatsObj) : Prop :=
  objGet o "total" = .num (sumCounters o)
  ∧ ∀ k, k ∉ reservedStatsKeys →
      (objGet o k = .undefined ∨ ∃ n, objGet o k = .num n)

/-! ## Envelopes, configuration and the host environment -/

/-- The canonical error envelope (`errorInfo`).  Every optional field holds
a `JSVal` so that an omitted field is the JavaScript `undefined` the object
literals actually store.  `args` carries the serialized console-argument
list of console envelopes. -/
structure ErrorInfo where
  type : String := "manual"
  error : JSVal := .undefined
  stack : JSVal := .undefined
  context : JSVal := .undefined
  timestamp : Nat := 0
  url : JSVal := .undefined
  method : JSVal := .undefined
  userAgent : JSVal := .undefined
  page : JSVal := .undefined
  message : JSVal := .undefined
  source : JSVal := .undefined
  lineno : JSVal := .undefined
  colno : JSVal := .undefined
  reason : JSVal := .undefined
  args : List JSVal := []
  path : JSVal := .undefined
  query : JSVal := .undefined
  statusCode : JSVal := .undefined
  statusText : JSVal := .undefined
  responseTime : JSVal := .undefined
  requestData : JSVal := .undefined
  requestHeaders : JSVal := .undefined
  requestId : JSVal := .undefined
  environment : JSVal := .undefined
  retryCount : JSVal := .undefined
  networkType : JSVal := .undefined
  isConnected : JSVal := .undefined

/-- The monitor configuration after `init`'s merge over the defaults. -/
structure MonitorConfig where
  enableGlobalError : Bool := true
  enablePromiseError : Bool := true
  enableConsoleError : Bool := false
  webhookUrl : String := ""
  maxRetries : Nat := 3
  retryDelay : Nat := 1000
  forceEnable : Bool := false
  customFormatter : Option (ErrorInfo → String) := none
  customSender : Option (ErrorInfo → Except String Unit) := none

/-- `this.config?.forceEnable` with `this.config` possibly `null`. -/
def forceEnableOf : Option MonitorConfig → Bool
  | some c => c.forceEnable
  | none => false

/-- The injected host environment: current page/URL/device probes, the
clock, and the system-info fields the formatter reads
(`uni.getSystemInfoSync`, `Date.prototype.toLocaleString`). -/
structure Host where
  now : Nat := 0
  currentUrl : String := ""
  userAgent : String := "Unknown Device"
  pageName : String := "未知页面"
  appName : JSVal := .undefined
  appVersion : JSVal := .undefined
  formatTime : Nat → String := fun t => toString t

/-- `this.projectInfo` of the part_002 monitor. -/
structure ProjectInfo where
  name : String
  version : String

/-- The part_002 monitor constructor's project info. -/
def projectInfoDefault : ProjectInfo :=
  ⟨"uniapp-error-monitor", "1.0.0"⟩

/-! ## The default formatter (`_formatErrorMessage`, part_002 monitor) -/

/-- The type-specific detail block of `_formatErrorMessage` (the `switch` on
`errorInfo.type`).  The only statement in the whole formatter that can throw
is the unprotected `JSON.stringify(errorInfo.requestData, null, 2)` in the
`api` arm, which the `Except` result records. -/
def formatDetail (e : ErrorInfo) : Except String String :=
  if e.type = "global" then
    .ok ("🔍 错误类型: 全局错误\n"
      ++ "📝 错误信息: " ++ jsDisplay e.message ++ "\n"
      ++ (if truthy e.source then "📂 文件: " ++ jsDisplay e.source ++ "\n" else "")
      ++ (if truthy e.lineno then
            "📍 行号: " ++ jsDisplay e.lineno ++ ":" ++ jsDisplay e.colno ++ "\n"
          else ""))
  else if e.type = "promise" then
    .ok ("🔍 错误类型: Promise错误\n"
      ++ "📝 错误信息: " ++ jsDisplay (serializeErrorVal e.reason) ++ "\n")
  else if e.type = "console" then
    .ok ("🔍 错误类型: Console错误\n"
      ++ "📝 错误信息: " ++ String.intercalate " " (e.args.map jsDisplay) ++ "\n")
  else if e.type = "miniProgram" then
    .ok ("🔍 错误类型: 小程序错误\n"
      ++ "📝 错误信息: " ++ jsDisplay (jsOr e.error (.str "Unknown")) ++ "\n"
      ++ (if truthy e.path then "📱 页面路径: " ++ jsDisplay e.path ++ "\n" else "")
      ++ (if truthy e.query then "🔗 查询参数: " ++ jsDisplay e.query ++ "\n" else ""))
  else if e.type = "network" then
    .ok ("🔍 错误类型: 网络错误\n"
      ++ "📝 请求地址: " ++ jsDisplay (jsOr e.url (.str "Unknown")) ++ "\n"
      ++ "📝 请求方法: " ++ jsDisplay (jsOr e.method (.str "Unknown")) ++ "\n"
      ++ (if truthy e.error then
            (if isObjectType e.error then
              "🔢 错误代码: "
                ++ jsDisplay (jsOr (getFieldD e.error "code")
                    (jsOr (getFieldD e.error "errCode") (.str "Unknown"))) ++ "\n"
                ++ "📝 错误信息: "
                ++ jsDisplay (jsOr (getFieldD e.error "message")
                    (jsOr (getFieldD e.error "errMsg") (serializeErrorVal e.error))) ++ "\n"
                ++ (if truthy (getFieldD e.error "errCode") then
                      "🆔 微信错误码: " ++ jsDisplay (getFieldD e.error "errCode") ++ "\n"
                    else "")
                ++ (if truthy (getFieldD e.error "errMsg") then
                      "💬 微信错误信息: " ++ jsDisplay (getFieldD e.error "errMsg") ++ "\n"
                    else "")
            else "📝 错误信息: " ++ jsDisplay e.error ++ "\n")
          else ""))
  else if e.type = "api" then do
    let requestDataLine ←
      if truthy e.requestData then
        if isObjectType e.requestData then do
          let s ← jsonStringify e.requestData
          pure ("📋 请求参数: " ++ s ++ "\n")
        else pure ("📋 请求参数: " ++ jsDisplay e.requestData ++ "\n")
      else pure ""
    .ok ("🔍 错误类型: 接口错误\n"
      ++ "📝 请求地址: " ++ jsDisplay (jsOr e.url (.str "Unknown")) ++ "\n"
      ++ "📝 请求方法: " ++ jsDisplay (jsOr e.method (.str "Unknown")) ++ "\n"
      ++ requestDataLine
      ++ (if truthy e.statusCode then "📊 状态码: " ++ jsDisplay e.statusCode ++ "\n" else "")
      ++ (if truthy e.statusText then "📝 状态文本: " ++ jsDisplay e.statusText ++ "\n" else "")
      ++ (if truthy e.error then
            (if isObjectType e.error then
              (if truthy (getFieldD e.error "code") || truthy (getFieldD e.error "status") then
                  "🔢 错误代码: "
                    ++ jsDisplay (jsOr (getFieldD e.error "code") (getFieldD e.error "status")) ++ "\n"
                else "")
                ++ (if truthy (getFieldD e.error "message") || truthy (getFieldD e.error "msg") then
                      "📝 错误信息: "
                        ++ jsDisplay (jsOr (getFieldD e.error "message") (getFieldD e.error "msg")) ++ "\n"
                    else "")
                ++ (if truthy (getFieldD e.error "data") then
                      "📄 响应数据: " ++ jsDisplay (serializeErrorVal (getFieldD e.error "data")) ++ "\n"
                    else "")
            else "📝 错误信息: " ++ jsDisplay e.error ++ "\n")
          else ""))
  else
    .ok ("🔍 错误类型: " ++ e.type ++ "\n"
      ++ "📝 错误信息: " ++ jsDisplay (serializeErrorVal e.error) ++ "\n")

/-- `_formatErrorMessage(errorInfo)` of the part_002 monitor: header block,
type-specific detail, trailing statistics block (including the `manual`
counter) and device line. -/
def formatErrorMessage (st : StatsObj) (proj : ProjectInfo) (host : Host)
    (e : ErrorInfo) : Except String String := do
  let timestamp := host.formatTime e.timestamp
  let header :=
    "🚨 JavaScript错误报告\n"
    ++ "📦 项目: " ++ jsDisplay (jsOr host.appName (.str proj.name)) ++ "\n"
    ++ "🏷️ 版本: " ++ jsDisplay (jsOr host.appVersion (.str proj.version)) ++ "\n"
    ++ "⏰ 时间: " ++ timestamp ++ "\n"
    ++ "📱 页面: " ++ jsDisplay (jsOr e.page (.str "未知页面")) ++ "\n"
    ++ "🌐 链接: " ++ jsDisplay (jsOr e.url (.str "未知链接")) ++ "\n\n"
  let detail ← formatDetail e
  let statsBlock :=
    "\n📊 统计信息:\n"
    ++ "总计错误: " ++ jsDisplay (objGet st "total") ++ "\n"
    ++ "全局错误: " ++ jsDisplay (objGet st "global") ++ "\n"
    ++ "Promise错误: " ++ jsDisplay (objGet st "promise") ++ "\n"
    ++ "Console错误: " ++ jsDisplay (objGet st "console") ++ "\n"
    ++ "小程序错误: " ++ jsDisplay (objGet st "miniProgram") ++ "\n"
    ++ "接口错误: " ++ jsDisplay (objGet st "api") ++ "\n"
    ++ "网络错误: " ++ jsDisplay (objGet st "network") ++ "\n"
    ++ "手动错误: " ++ jsDisplay (objGet st "manual") ++ "\n"
  let uaBlock :=
    if truthy e.userAgent then "\n📱 设备信息:\n" ++ jsDisplay e.userAgent ++ "\n" else ""
  .ok (header ++ detail ++ statsBlock ++ uaBlock)

/-! ## The delivery pipeline (part_002 monitor) -/

/-- The JSON body the default transport posts. -/
structure WebhookBody where
  msgtype : String
  content : String
  mentionedList : List String
deriving Repr

/-- The HTTP request the default transport issues through `uni.request`. -/
structure WebhookRequest where
  url : String
  method : String
  contentType : String
  body : WebhookBody
deriving Repr

/-- The observable outcome of one `_sendError` invocation. -/
inductive SendOutcome where
  /-- The environment gate skipped delivery (log-level diagnostic only). -/
  | gatedSkip
  /-- The configured custom sender was invoked with the envelope. -/
  | senderCalled (info : ErrorInfo)
  /-- The default transport posted the request. -/
  | posted (req : WebhookRequest)
  /-- No webhook address configured: warn and return without posting. -/
  | noWebhook
  /-- The formatter threw (caught by `_sendError`): nothing was posted. -/
  | formatThrew (msg : String)

/-- `this.config?.webhookUrl` read as in `_sendToWebhook` (a missing
configuration reads as the falsy `undefined`, merged defaults give `""`). -/
def webhookUrlOf : Option MonitorConfig → String
  | some c => c.webhookUrl
  | none => ""

/-- `this.config?.customFormatter`. -/
def customFormatterOf : Option MonitorConfig → Option (ErrorInfo → String)
  | some c => c.customFormatter
  | none => none

/-- `this.config?.customSender`. -/
def customSenderOf : Option MonitorConfig → Option (ErrorInfo → Except String Unit)
  | some c => c.customSender
  | none => none

/-- The formatter selection in `_sendToWebhook`:
`this.config?.customFormatter ? this.config.customFormatter(errorInfo) :
this._formatErrorMessage(errorInfo)`. -/
def formatChoice (fmt : Option (ErrorInfo → String)) (st : StatsObj)
    (proj : ProjectInfo) (host : Host) (e : ErrorInfo) : Except String String :=
  match fmt with
  | some f => .ok (f e)
  | none => formatErrorMessage st proj host e

/-- `_sendToWebhook(errorInfo)` of the part_002 monitor: bail out when no
webhook address is configured, otherwise format the envelope and POST
`{ msgtype: "text", text: { content, mentioned_list: [] } }` with a
`Content-Type: application/json` header to the configured address. -/
def sendToWebhook (cfg : Option MonitorConfig) (st : StatsObj) (host : Host)
    (info : ErrorInfo) : SendOutcome :=
  let webhookUrl := webhookUrlOf cfg
  if webhookUrl = "" then .noWebhook
  else
    match formatChoice (customFormatterOf cfg) st projectInfoDefault host info with
    | .error m => .formatThrew m
    | .ok content =>
        .posted { url := webhookUrl, method := "POST",
                  contentType := "application/json",
                  body := { msgtype := "text", content := content,
                            mentionedList := [] } }

/-- `_sendError(errorInfo, forceSend)` of the part_002 monitor: the
environment gate (`!forceSend && !isProduction && !config?.forceEnable`)
skips delivery; otherwise the custom sender, if configured, is invoked with
the envelope, else the default webhook transport runs. -/
def sendError (cfg : Option MonitorConfig) (isProd : Bool) (st : StatsObj)
    (host : Host) (info : ErrorInfo) (forceSend : Bool) : SendOutcome :=
  if !forceSend && !isProd && !(forceEnableOf cfg) then .gatedSkip
  else
    match customSenderOf cfg with
    | some _ => .senderCalled info
    | none => sendToWebhook cfg st host info

/-! ## Envelope builders and handlers (part_002 monitor) -/

/-- The envelope object literal of `reportError(type, error, context,
forceSend)` (part_002 monitor, lines 99–122), with every property in
evaluation order: the `statusCode` … `isConnected` reads are plain property
accesses on `error` and therefore throw when `error` is `null` or
`undefined`. -/
def buildReportErrorInfo (host : Host) (type : String) (error : JSVal)
    (context : JSVal) : Except String ErrorInfo := do
  let errField := if isErrorInstance error then getFieldD error "message" else error
  let stackField := if isErrorInstance error then getFieldD error "stack" else .null
  let statusCode ← getProp error "statusCode"
  let statusText ← getProp error "statusText"
  let responseTime ← getProp error "responseTime"
  let requestData ← getProp error "requestData"
  let requestHeaders ← getProp error "requestHeaders"
  let requestId ← getProp error "requestId"
  let environment ← getProp error "environment"
  let retryCount ← getProp error "retryCount"
  let networkType ← getProp error "networkType"
  let isConnected ← getProp error "isConnected"
  .ok { type := type, error := errField, stack := stackField, context := context,
        timestamp := host.now, url := .str host.currentUrl,
        userAgent := .str host.userAgent, page := .str host.pageName,
        statusCode := statusCode, statusText := statusText,
        responseTime := responseTime, requestData := requestData,
        requestHeaders := requestHeaders, requestId := requestId,
        environment := environment, retryCount := retryCount,
        networkType := networkType, isConnected := isConnected }

/-- `reportError(type, error, context, forceSend)` of the part_002 monitor:
build the envelope, record the stats, hand the envelope to `_sendError`.
The `Except` propagates the synchronous `TypeError` that the envelope
literal raises on a nullish `error` argument (in which case the stats are
not touched, since the literal is evaluated first). -/
def reportErrorRun (cfg : Option MonitorConfig) (isProd : Bool) (st : StatsObj)
    (host : Host) (type : String) (error : JSVal) (context : JSVal)
    (forceSend : Bool) : Except String (StatsObj × SendOutcome) := do
  let info ← buildReportErrorInfo host type error context
  let st1 := updateErrorStats st type host.now
  .ok (st1, sendError cfg isProd st1 host info forceSend)

/-- The raw payload the `window.onerror` adapter hands to
`_handleGlobalError` (part_002 monitor, lines 186–195). -/
structure GlobalErrorRaw where
  message : JSVal := .undefined
  source : JSVal := .undefined
  lineno : JSVal := .undefined
  colno : JSVal := .undefined
  error : JSVal := .undefined
  timestamp : Nat := 0

/-- `_handleGlobalError(errorInfo)` of the part_002 monitor: record a
`global` stat, then send an envelope in which `message`, `source`, `lineno`
and `colno` are defaulted through `||` to `"Unknown global error"`, `""`,
`0` and `0` respectively. -/
def handleGlobalError (cfg : Option MonitorConfig) (isProd : Bool)
    (st : StatsObj) (host : Host) (raw : GlobalErrorRaw) :
    StatsObj × ErrorInfo × SendOutcome :=
  let st1 := updateErrorStats st "global" host.now
  let info : ErrorInfo :=
    { type := "global", error := raw.error, timestamp := raw.timestamp,
      message := jsOr raw.message (.str "Unknown global error"),
      source := jsOr raw.source (.str ""),
      lineno := jsOr raw.lineno (.num 0),
      colno := jsOr raw.colno (.num 0),
      url := .str host.currentUrl, userAgent := .str host.userAgent,
      page := .str host.pageName }
  (st1, info, sendError cfg isProd st1 host info false)

/-- `_handlePromiseError(errorInfo)` (part_002 monitor; the part_003 monitor
inlines the same statements): record a `promise` stat and send the envelope
with the serialized rejection reason. -/
def handlePromiseError (cfg : Option MonitorConfig) (isProd : Bool)
    (st : StatsObj) (host : Host) (reason : JSVal) (timestamp : Nat) :
    StatsObj × SendOutcome :=
  let st1 := updateErrorStats st "promise" host.now
  let info : ErrorInfo :=
    { type := "promise", reason := serializeErrorVal reason,
      timestamp := timestamp, url := .str host.currentUrl,
      userAgent := .str host.userAgent, page := .str host.pageName }
  (st1, sendError cfg isProd st1 host info false)

/-- `_handleMiniProgramError(errorInfo)` of the part_002 monitor: record a
`miniProgram` stat and send the spread payload with refreshed `url`,
`userAgent` and `page` — every other raw field (`path`, `query`, …) passes
through untouched. -/
def handleMiniProgramError (cfg : Option MonitorConfig) (isProd : Bool)
    (st : StatsObj) (host : Host) (raw : ErrorInfo) :
    StatsObj × ErrorInfo × SendOutcome :=
  let st1 := updateErrorStats st "miniProgram" host.now
  let info : ErrorInfo :=
    { raw with url := .str host.currentUrl, userAgent := .str host.userAgent,
               page := .str host.pageName }
  (st1, info, sendError cfg isProd st1 host info false)

/-- The promise wrapper both monitors install during init
(`this.wrapPromise = promise => promise.catch(error => { …handle…; throw
error })`).  A settled promise is an `Except`: the wrapper forwards a
fulfilment untouched, and on rejection reports through
`_handlePromiseError` and rethrows the original reason. -/
def wrapPromiseInstalled (cfg : Option MonitorConfig) (isProd : Bool)
    (st : StatsObj) (host : Host) (p : Except JSVal JSVal) :
    Except JSVal JSVal × StatsObj × Option SendOutcome :=
  match p with
  | .ok v => (.ok v, st, none)
  | .error e =>
      let r := handlePromiseError cfg isProd st host e host.now
      (.error e, r.1, some r.2)

/-! ## The retrying delivery pipeline (part_003 monitor) -/

/-- `this.config?.maxRetries || 3`: the JavaScript `||` treats a configured
`0` as absent and substitutes the default 3. -/
def effMaxRetries : Option MonitorConfig → Nat
  | some c => if c.maxRetries = 0 then 3 else c.maxRetries
  | none => 3

/-- `this.config?.retryDelay || 1000` under the same falsiness rule. -/
def effRetryDelay : Option MonitorConfig → Nat
  | some c => if c.retryDelay = 0 then 1000 else c.retryDelay
  | none => 1000

/-- `_sendErrorToWebhook(errorInfo, retryCount, forceSend)` of the part_003
monitor, run to completion against a transport whose success on the attempt
with index `retryCount` is `transportOk retryCount`.  Returns the number of
transport invocations and the list of scheduled retry delays (the
`setTimeout` argument `retryDelay * (retryCount + 1)` before each retry).
Faithful details: the environment gate and the `VITE_WEBHOOK` presence check
(`envWebhook`) are re-evaluated on every attempt, and the recursive retry
call passes no `forceSend`, so it falls back to the default `false`. -/
def sendErrorToWebhookRun (cfg : Option MonitorConfig)
    (isProd envWebhook : Bool) (transportOk : Nat → Bool) (forceSend : Bool)
    (retryCount : Nat) : Nat × List Nat :=
  if !forceSend && !isProd && !(forceEnableOf cfg) then (0, [])
  else if !envWebhook then (0, [])
  else if transportOk retryCount then (1, [])
  else if h : retryCount < effMaxRetries cfg then
    let rest := sendErrorToWebhookRun cfg isProd envWebhook transportOk false (retryCount + 1)
    (1 + rest.1, effRetryDelay cfg * (retryCount + 1) :: rest.2)
  else (1, [])
termination_by effMaxRetries cfg - retryCount
decreasing_by omega

/-! ## The library boundary (`src/index.js` over the part_002 class) -/

/-- The method names the part_002 `ErrorMonitor` class body defines (its
prototype).  Neither `setSender` nor `setFormatter` nor `isProduction` is
among them, although `src/index.js` and the package's type declarations
refer to them. -/
def errorMonitorMethods : List String :=
  ["init", "reportError", "wrapPromise", "getErrorStats", "resetErrorStats",
   "getEnvironmentInfo", "_setupGlobalErrorHandlers",
   "_setupPromiseErrorHandlers", "_setupConsoleErrorHandlers",
   "_setupMiniProgramErrorHandlers", "_handleGlobalError",
   "_handlePromiseError", "_handleConsoleError", "_handleMiniProgramError",
   "_handleNetworkError", "_updateErrorStats", "_sendError",
   "_sendToWebhook", "_formatErrorMessage", "_getCurrentUrl",
   "_getUserAgent", "_getCurrentPageName", "_getMode", "_isProduction",
   "_serializeError"]

/-- The instance's own properties right after the part_002 constructor ran
(before any `init`): note `wrapPromise` is the own property `null`, which
shadows the prototype method of the same name. -/
def preInitOwnProps : List (String × JSVal) :=
  [("errorStats", .obj initialStatsObj), ("wrapPromise", .null),
   ("projectInfo", .obj [("name", .str "uniapp-error-monitor"),
                         ("version", .str "1.0.0")]),
   ("config", .null)]

/-- JavaScript method invocation `instance.name(...)` on the part_002
monitor instance: an own property shadows the prototype; the call throws a
`TypeError` unless the resolved member is callable.  None of the pre-init
own-property values is a function, so a present own property here is not
callable. -/
def callInstanceMethod (own : List (String × JSVal)) (name : String) :
    Except String Unit :=
  match fieldsLookup own name with
  | .undefined =>
      if errorMonitorMethods.contains name then .ok ()
      else .error ("TypeError: errorMonitorInstance." ++ name ++ " is not a function")
  | _ => .error ("TypeError: errorMonitorInstance." ++ name ++ " is not a function")

/-- `setCustomSender(sender)` of `src/index.js`: it calls
`errorMonitorInstance.setSender(sender)`. -/
def indexSetCustomSender : Except String Unit :=
  callInstanceMethod preInitOwnProps "setSender"

/-- `setCustomFormatter(formatter)` of `src/index.js`: it calls
`errorMonitorInstance.setFormatter(formatter)`. -/
def indexSetCustomFormatter : Except String Unit :=
  callInstanceMethod preInitOwnProps "setFormatter"

/-- `wrapPromise(promise)` of `src/index.js` invoked before `init` (or after
a gating-suppressed `init`): it calls `errorMonitorInstance.wrapPromise(p)`
while the own property is still `null`. -/
def indexWrapPromisePreInit : Except String Unit :=
  callInstanceMethod preInitOwnProps "wrapPromise"

/-- `reportError(...)` of `src/index.js` resolves against the prototype
method. -/
def indexReportErrorResolves : Except String Unit :=
  callInstanceMethod preInitOwnProps "reportError"

/-! ## Helper lemmas about the stats object -/

theorem objGet_objSet_self (o : StatsObj) (k : String) (v : JSVal) :
    objGet (objSet o k v) k = v := by
  induction o with
  | nil => simp [objSet, objGet]
  | cons head rest ih =>
      obtain ⟨a, w⟩ := head
      by_cases h : a = k
      · simp [objSet, objGet, h]
      · simp [objSet, objGet, h, ih]

theorem objGet_objSet_ne (o : StatsObj) (k key : String) (v : JSVal)
    (h : k ≠ key) : objGet (objSet o k v) key = objGet o key := by
  induction o with
  | nil => simp [objSet, objGet, h]
  | cons head rest ih =>
      obtain ⟨a, w⟩ := head
      by_cases ha : a = k
      · subst ha
        simp [objSet, objGet, h]
      · simp [objSet, objGet, ha, ih]

theorem objGet_updateErrorStats_total (o : StatsObj) (ty : String) (now : Nat)
    (h : ty ≠ "total") :
    objGet (updateErrorStats o ty now) "total" = jsIncrement (objGet o "total") := by
  unfold updateErrorStats
  rw [objGet_objSet_ne _ _ _ _ (by simp), objGet_objSet_ne _ _ _ _ (Ne.symm (fun hh => h hh.symm)),
    objGet_objSet_self]

theorem objGet_updateErrorStats_counter (o : StatsObj) (ty : String) (now : Nat)
    (hty : ty ≠ "total") (hle : ty ≠ "lastErrorTime") :
    objGet (updateErrorStats o ty now) ty
      = jsIncrement (jsOr (objGet o ty) (.num 0)) := by
  unfold updateErrorStats
  rw [objGet_objSet_ne _ _ _ _ (fun hh => hle hh.symm), objGet_objSet_self,
    objGet_objSet_ne _ _ _ _ (fun hh => hty hh.symm)]

theorem objGet_updateErrorStats_lastErrorTime (o : StatsObj) (ty : String)
    (now : Nat) :
    objGet (updateErrorStats o ty now) "lastErrorTime" = .num now := by
  unfold updateErrorStats
  rw [objGet_objSet_self]

theorem objGet_updateErrorStats_other (o : StatsObj) (ty k : String) (now : Nat)
    (h1 : k ≠ ty) (h2 : k ≠ "total") (h3 : k ≠ "lastErrorTime") :
    objGet (updateErrorStats o ty now) k = objGet o k := by
  unfold updateErrorStats
  rw [objGet_objSet_ne _ _ _ _ (fun hh => h3 hh.symm),
    objGet_objSet_ne _ _ _ _ (fun hh => h1 hh.symm),
    objGet_objSet_ne _ _ _ _ (fun hh => h2 hh.symm)]

theorem jsIncrement_jsOr_num (n : Int) :
    jsIncrement (jsOr (.num n) (.num 0)) = .num (n + 1) := by
  by_cases hn : n = 0 <;> simp [jsOr, truthy, jsIncrement, jsToNumberOpt, hn]

theorem jsIncrement_jsOr_undefined :
    jsIncrement (jsOr .undefined (.num 0)) = .num 1 := rfl

theorem counterVal_num (o : StatsObj) (ty : String) (n : Int)
    (h : objGet o ty = .num n) : counterVal o ty = n := by
  by_cases hn : n = 0 <;>
    simp [counterVal, h, jsOr, truthy, toNumD, jsToNumberOpt, hn]

theorem counterVal_undefined (o : StatsObj) (ty : String)
    (h : objGet o ty = .undefined) : counterVal o ty = 0 := by
  simp [counterVal, h, jsOr, truthy, toNumD, jsToNumberOpt]

theorem sumCounters_objSet_reserved (o : StatsObj) (k : String) (v : JSVal)
    (h : k ∈ reservedStatsKeys) :
    sumCounters (objSet o k v) = sumCounters o := by
  induction o with
  | nil => simp [objSet, sumCounters, h]
  | cons head rest ih =>
      obtain ⟨a, w⟩ := head
      by_cases ha : a = k
      · subst ha
        simp [objSet, sumCounters, h]
      · simp only [objSet, if_neg ha, sumCounters, ih]

theorem sumCounters_objSet_bump (o : StatsObj) (k : String)
    (h : k ∉ reservedStatsKeys)
    (hval : objGet o k = .undefined ∨ ∃ n, objGet o k = .num n) :
    sumCounters (objSet o k (jsIncrement (jsOr (objGet o k) (.num 0))))
      = sumCounters o + 1 := by
  induction o with
  | nil =>
      simp [objGet, objSet, sumCounters, jsOr, truthy, jsIncrement, jsToNumberOpt,
        toNumD, h]
  | cons head rest ih =>
      obtain ⟨a, w⟩ := head
      by_cases ha : a = k
      · subst ha
        simp only [objGet, if_pos rfl, objSet, sumCounters] at hval ⊢
        rcases hval with hu | ⟨n, hn⟩
        · subst hu
          simp [jsIncrement_jsOr_undefined, toNumD, jsToNumberOpt, h]
          ring
        · subst hn
          simp [jsIncrement_jsOr_num, toNumD, jsToNumberOpt, h]
          ring
      · simp only [objGet, if_neg ha] at hval
        simp only [objGet, if_neg ha, objSet, sumCounters]
        rw [ih hval]
        ring

theorem sumCounters_updateErrorStats (o : StatsObj) (ty : String) (now : Nat)
    (hty : ty ∉ reservedStatsKeys)
    (hval : objGet o ty = .undefined ∨ ∃ n, objGet o ty = .num n) :
    sumCounters (updateErrorStats o ty now) = sumCounters o + 1 := by
  have hty' : ty ≠ "total" := by
    intro hh; exact hty (by simp [reservedStatsKeys, hh])
  unfold updateErrorStats
  rw [sumCounters_objSet_reserved _ _ _ (by simp [reservedStatsKeys])]
  rw [sumCounters_objSet_bump _ _ hty
    (by rw [objGet_objSet_ne _ _ _ _ (fun hh => hty' hh.symm)]; exact hval)]
  rw [sumCounters_objSet_reserved _ _ _ (by simp [reservedStatsKeys])]

theorem goodStats_initial : GoodStats initialStatsObj := by
  constructor
  · rfl
  · intro k hk
    simp only [initialStatsObj, objGet]
    split_ifs with h1 h2 h3 h4 h5 h6 h7 h8 h9
    · exact absurd (by simp [reservedStatsKeys, ← h1]) hk
    · exact Or.inr ⟨0, rfl⟩
    · exact Or.inr ⟨0, rfl⟩
    · exact Or.inr ⟨0, rfl⟩
    · exact Or.inr ⟨0, rfl⟩
    · exact Or.inr ⟨0, rfl⟩
    · exact Or.inr ⟨0, rfl⟩
    · exact Or.inr ⟨0, rfl⟩
    · exact absurd (by simp [reservedStatsKeys, ← h9]) hk
    · exact Or.inl rfl

theorem goodStats_update (o : StatsObj) (ty : String) (now : Nat)
    (hg : GoodStats o) (hty : ty ∉ reservedStatsKeys) :
    GoodStats (updateErrorStats o ty now) := by
  obtain ⟨htotal, hcounters⟩ := hg
  have hty_total : ty ≠ "total" := by
    intro hh; exact hty (by simp [reservedStatsKeys, hh])
  have hty_let : ty ≠ "lastErrorTime" := by
    intro hh; exact hty (by simp [reservedStatsKeys, hh])
  constructor
  · rw [objGet_updateErrorStats_total _ _ _ hty_total, htotal,
      sumCounters_updateErrorStats _ _ _ hty (hcounters ty hty)]
    simp [jsIncrement, jsToNumberOpt]
  · intro k hk
    by_cases hkty : k = ty
    · subst hkty
      rw [objGet_updateErrorStats_counter _ _ _ hty_total hty_let]
      rcases hcounters k hk with hu | ⟨n, hn⟩
      · rw [hu, jsIncrement_jsOr_undefined]; exact Or.inr ⟨1, rfl⟩
      · rw [hn, jsIncrement_jsOr_num]; exact Or.inr ⟨n + 1, rfl⟩
    · have hk_total : k ≠ "total" := by
        intro hh; exact hk (by simp [reservedStatsKeys, hh])
      have hk_let : k ≠ "lastErrorTime" := by
        intro hh; exact hk (by simp [reservedStatsKeys, hh])
      rw [objGet_updateErrorStats_other _ _ _ _ hkty hk_total hk_let]
      exact hcounters k hk

theorem goodStats_applyRecords (recs : List (String × Nat)) :
    ∀ o : StatsObj, (∀ p ∈ recs, p.1 ∉ reservedStatsKeys) → GoodStats o →
      GoodStats (applyRecords recs o) := by
  induction recs with
  | nil => intro o _ hg; exact hg
  | cons r rest ih =>
      intro o hrecs hg
      simp only [applyRecords, List.foldl_cons]
      have := ih (updateErrorStats o r.1 r.2)
        (fun p hp => hrecs p (List.mem_cons_of_mem r hp))
        (goodStats_update o r.1 r.2 hg (hrecs r (List.mem_cons_self r rest)))
      simpa [applyRecords] using this

theorem objGet_initial_unknown (tag : String) (h1 : tag ∉ errorTypeKeys)
    (h2 : tag ∉ reservedStatsKeys) : objGet initialStatsObj tag = .undefined := by
  simp only [errorTypeKeys, List.mem_cons, List.not_mem_nil, or_false, not_or] at h1
  simp only [reservedStatsKeys, List.mem_cons, List.not_mem_nil, or_false, not_or] at h2
  obtain ⟨hg, hp, hc, hm, ha, hn, hman⟩ := h1
  obtain ⟨ht, hl⟩ := h2
  simp only [initialStatsObj, objGet]
  rw [if_neg (fun hh => ht hh.symm), if_neg (fun hh => hg hh.symm),
    if_neg (fun hh => hp hh.symm), if_neg (fun hh => hc hh.symm),
    if_neg (fun hh => hm hh.symm), if_neg (fun hh => ha hh.symm),
    if_neg (fun hh => hn hh.symm), if_neg (fun hh => hman hh.symm),
    if_neg (fun hh => hl hh.symm)]

theorem objGet_applyRecords_absent (recs : List (String × Nat)) (tag : String)
    (ht : tag ≠ "total") (hl : tag ≠ "lastErrorTime")
    (hne : ∀ p ∈ recs, p.1 ≠ tag) :
    ∀ o : StatsObj, objGet o tag = .undefined →
      objGet (applyRecords recs o) tag = .undefined := by
  induction recs with
  | nil => intro o ho; exact ho
  | cons r rest ih =>
      intro o ho
      simp only [applyRecords, List.foldl_cons]
      have step : objGet (updateErrorStats o r.1 r.2) tag = .undefined := by
        rw [objGet_updateErrorStats_other _ _ _ _
          (fun hh => (hne r (List.mem_cons_self r rest)) hh.symm) ht hl]
        exact ho
      have := ih (fun p hp => hne p (List.mem_cons_of_mem r hp))
        (updateErrorStats o r.1 r.2) step
      simpa [applyRecords] using this

theorem hasCounter_jsIncrement (o : StatsObj) (k : String) (v : JSVal)
    (h : objGet o k = jsIncrement v) : hasCounter o k = true := by
  unfold hasCounter
  rw [h]
  unfold jsIncrement
  cases jsToNumberOpt v <;> simp

/-! ## Claim theorems -/

/-- C2, counterexample: recording an error whose type tag is the string
`"total"` makes `this.errorStats[type]` write the `total` property itself:
`total` jumps from 0 to 2 while every per-type counter stays 0, so the
claimed equality `total = sum of per-type counters` fails, and no counter
keyed `"total"` is created. -/
theorem statsTotalAliasing_counterexample :
    objGet (updateErrorStats initialStatsObj "total" 5) "total" = .num 2
    ∧ sumCounters (updateErrorStats initialStatsObj "total" 5) = 0
    ∧ (2 : Int) ≠ 0 := by
  refine ⟨rfl, rfl, by decide⟩

/-- C2 (amended): for every sequence of recorded errors whose type tags
avoid the two non-counter property names `"total"` and `"lastErrorTime"`,
after each record the `total` property equals the sum of all per-type
counters — including counters created on the fly for unknown tags — and one
more record with any such tag (known or unknown) increments `total` by one,
creates or increments the counter keyed by that tag, grows the counter sum
by one and refreshes `lastErrorTime`. -/
theorem statsTotalEqSumCounters (recs : List (String × Nat))
    (hrecs : ∀ p ∈ recs, p.1 ∉ reservedStatsKeys) :
    objGet (applyRecords recs initialStatsObj) "total"
      = .num (sumCounters (applyRecords recs initialStatsObj))
    ∧ ∀ ty now, ty ∉ reservedStatsKeys →
        objGet (updateErrorStats (applyRecords recs initialStatsObj) ty now) "total"
          = .num (sumCounters (applyRecords recs initialStatsObj) + 1)
        ∧ objGet (updateErrorStats (applyRecords recs initialStatsObj) ty now) ty
          = .num (counterVal (applyRecords recs initialStatsObj) ty + 1)
        ∧ sumCounters (updateErrorStats (applyRecords recs initialStatsObj) ty now)
          = sumCounters (applyRecords recs initialStatsObj) + 1
        ∧ objGet (updateErrorStats (applyRecords recs initialStatsObj) ty now) "lastErrorTime"
          = .num now := by
  have hg := goodStats_applyRecords recs initialStatsObj hrecs goodStats_initial
  refine ⟨hg.1, ?_⟩
  intro ty now hty
  have hty_total : ty ≠ "total" := by
    intro hh; exact hty (by simp [reservedStatsKeys, hh])
  have hty_let : ty ≠ "lastErrorTime" := by
    intro hh; exact hty (by simp [reservedStatsKeys, hh])
  refine ⟨?_, ?_, ?_, ?_⟩
  · rw [objGet_updateErrorStats_total _ _ _ hty_total, hg.1]
    simp [jsIncrement, jsToNumberOpt]
  · rw [objGet_updateErrorStats_counter _ _ _ hty_total hty_let]
    rcases hg.2 ty hty with hu | ⟨n, hn⟩
    · rw [hu, jsIncrement_jsOr_undefined, counterVal_undefined _ _ hu]
      norm_num
    · rw [hn, jsIncrement_jsOr_num, counterVal_num _ _ _ hn]
  · exact sumCounters_updateErrorStats _ _ _ hty (hg.2 ty hty)
  · exact objGet_updateErrorStats_lastErrorTime _ _ _

/-- C2, witness: a concrete run with one known and one unknown tag. -/
theorem statsTotalEqSumCounters_witness :
    objGet (applyRecords [("manual", 1), ("weird", 2)] initialStatsObj) "total"
      = .num (sumCounters (applyRecords [("manual", 1), ("weird", 2)] initialStatsObj))
    ∧ objGet (updateErrorStats
        (applyRecords [("manual", 1), ("weird", 2)] initialStatsObj) "weird" 3) "weird"
      = .num (counterVal (applyRecords [("manual", 1), ("weird", 2)] initialStatsObj) "weird" + 1) := by
  have h := statsTotalEqSumCounters [("manual", 1), ("weird", 2)]
    (by simp [reservedStatsKeys])
  exact ⟨h.1, (h.2 "weird" 3 (by simp [reservedStatsKeys])).2.1⟩

/-- C10: resetting the stats replaces the stats object with exactly the
fixed counter fields (including `manual`) at zero and `lastErrorTime` null;
a counter dynamically created for a tag outside the fixed set exists right
after it is recorded, is absent right after `resetErrorStats`, and stays
absent in every later snapshot as long as only fixed-type errors are
recorded. -/
theorem resetDropsUnknownCounter (s : StatsObj) (tag : String) (t : Nat)
    (recs : List (String × Nat))
    (h1 : tag ∉ errorTypeKeys) (h2 : tag ∉ reservedStatsKeys)
    (hrecs : ∀ p ∈ recs, p.1 ∈ errorTypeKeys) :
    hasCounter (updateErrorStats s tag t) tag = true
    ∧ resetErrorStats =
        [("total", .num 0), ("global", .num 0), ("promise", .num 0),
         ("console", .num 0), ("miniProgram", .num 0), ("api", .num 0),
         ("network", .num 0), ("manual", .num 0), ("lastErrorTime", .null)]
    ∧ hasCounter resetErrorStats tag = false
    ∧ hasCounter (applyRecords recs resetErrorStats) tag = false := by
  have ht : tag ≠ "total" := by
    intro hh; exact h2 (by simp [reservedStatsKeys, hh])
  have hl : tag ≠ "lastErrorTime" := by
    intro hh; exact h2 (by simp [reservedStatsKeys, hh])
  have habs : objGet initialStatsObj tag = .undefined := objGet_initial_unknown tag h1 h2
  refine ⟨?_, rfl, ?_, ?_⟩
  · exact hasCounter_jsIncrement _ _ _ (objGet_updateErrorStats_counter s tag t ht hl)
  · simp [hasCounter, resetErrorStats, habs]
  · have hne : ∀ p ∈ recs, p.1 ≠ tag := by
      intro p hp hh
      exact h1 (hh ▸ hrecs p hp)
    have := objGet_applyRecords_absent recs tag ht hl hne initialStatsObj habs
    simp [hasCounter, resetErrorStats, this]

theorem getProp_ok (v : JSVal) (k : String) (h : isNullish v = false) :
    getProp v k = .ok (getFieldD v k) := by
  cases v <;> simp_all [isNullish, getProp]

theorem buildReportErrorInfo_eq (host : Host) (ty : String)
    (error context : JSVal) (h : isNullish error = false) :
    buildReportErrorInfo host ty error context = .ok
      { type := ty,
        error := if isErrorInstance error then getFieldD error "message" else error,
        stack := if isErrorInstance error then getFieldD error "stack" else .null,
        context := context, timestamp := host.now, url := .str host.currentUrl,
        userAgent := .str host.userAgent, page := .str host.pageName,
        statusCode := getFieldD error "statusCode",
        statusText := getFieldD error "statusText",
        responseTime := getFieldD error "responseTime",
        requestData := getFieldD error "requestData",
        requestHeaders := getFieldD error "requestHeaders",
        requestId := getFieldD error "requestId",
        environment := getFieldD error "environment",
        retryCount := getFieldD error "retryCount",
        networkType := getFieldD error "networkType",
        isConnected := getFieldD error "isConnected" } := by
  unfold buildReportErrorInfo
  rw [getProp_ok _ _ h, getProp_ok _ _ h, getProp_ok _ _ h, getProp_ok _ _ h,
    getProp_ok _ _ h, getProp_ok _ _ h, getProp_ok _ _ h, getProp_ok _ _ h,
    getProp_ok _ _ h, getProp_ok _ _ h]
  rfl

/-- C3: `reportError` does throw synchronously when the `error` argument is
`null` or `undefined` — the envelope literal's unguarded `error.statusCode`
read raises a `TypeError` before stats or delivery are touched — even
though the claim (and the propagation policy of the spec) says a call never
throws for any error value. -/
theorem reportErrorNullishThrows (cfg : Option MonitorConfig) (isProd : Bool)
    (st : StatsObj) (host : Host) (context : JSVal) (forceSend : Bool) :
    reportErrorRun cfg isProd st host "manual" .null context forceSend
      = .error "TypeError: Cannot read properties of null (reading statusCode)"
    ∧ reportErrorRun cfg isProd st host "manual" .undefined context forceSend
      = .error "TypeError: Cannot read properties of undefined (reading statusCode)" :=
  ⟨rfl, rfl⟩

/-- C4: with the environment non-production, `forceEnable` false and
`forceSend` false, `reportError` still bumps `total`, the per-type counter
and `lastErrorTime`, while `_sendError` gates the delivery off before either
the custom sender or the webhook transport is reached. -/
theorem gatedReportStillCounts (cfg : Option MonitorConfig) (st : StatsObj)
    (host : Host) (ty : String) (error context : JSVal) (T : Int)
    (hforce : forceEnableOf cfg = false)
    (hty_total : ty ≠ "total") (hty_let : ty ≠ "lastErrorTime")
    (htotal : objGet st "total" = .num T)
    (hcounter : objGet st ty = .undefined ∨ ∃ n, objGet st ty = .num n)
    (herr : isNullish error = false) :
    reportErrorRun cfg false st host ty error context false
      = .ok (updateErrorStats st ty host.now, .gatedSkip)
    ∧ objGet (updateErrorStats st ty host.now) "total" = .num (T + 1)
    ∧ objGet (updateErrorStats st ty host.now) ty = .num (counterVal st ty + 1)
    ∧ objGet (updateErrorStats st ty host.now) "lastErrorTime" = .num host.now
    ∧ (∀ envW tok rc, sendErrorToWebhookRun cfg false envW tok false rc = (0, [])) := by
  refine ⟨?_, ?_, ?_, objGet_updateErrorStats_lastErrorTime _ _ _, ?_⟩
  · unfold reportErrorRun
    rw [buildReportErrorInfo_eq _ _ _ _ herr]
    show Except.ok (updateErrorStats st ty host.now,
      sendError cfg false (updateErrorStats st ty host.now) host _ false) = _
    simp [sendError, hforce]
  · rw [objGet_updateErrorStats_total _ _ _ hty_total, htotal]
    simp [jsIncrement, jsToNumberOpt]
  · rw [objGet_updateErrorStats_counter _ _ _ hty_total hty_let]
    rcases hcounter with hu | ⟨n, hn⟩
    · rw [hu, jsIncrement_jsOr_undefined, counterVal_undefined _ _ hu]; norm_num
    · rw [hn, jsIncrement_jsOr_num, counterVal_num _ _ _ hn]
  · intro envW tok rc
    unfold sendErrorToWebhookRun
    simp [hforce]

/-- C4, witness: a concrete gated manual report. -/
theorem gatedReportStillCounts_witness :
    reportErrorRun none false initialStatsObj ({ now := 42 } : Host) "manual"
        (.str "boom") (.obj []) false
      = .ok (updateErrorStats initialStatsObj "manual" 42, .gatedSkip)
    ∧ objGet (updateErrorStats initialStatsObj "manual" 42) "total" = .num (0 + 1)
    ∧ objGet (updateErrorStats initialStatsObj "manual" 42) "manual"
        = .num (counterVal initialStatsObj "manual" + 1)
    ∧ objGet (updateErrorStats initialStatsObj "manual" 42) "lastErrorTime" = .num 42
    ∧ sendErrorToWebhookRun none false true (fun _ => false) false 0 = (0, []) := by
  have h := gatedReportStillCounts none initialStatsObj { now := 42 } "manual"
    (.str "boom") (.obj []) 0 rfl (by decide) (by decide) rfl
    (Or.inr ⟨0, rfl⟩) rfl
  exact ⟨h.1, h.2.1, h.2.2.1, h.2.2.2.1, h.2.2.2.2 true (fun _ => false) 0⟩

/-- C5: the wrapper installed on `this.wrapPromise` forwards a rejection
with exactly the original reason (the catch handler reports and then
rethrows the same value), and bumps the `promise` counter and `total` by
exactly one per rejection. -/
theorem wrapPromiseReportsOnce (cfg : Option MonitorConfig) (isProd : Bool)
    (st : StatsObj) (host : Host) (E : JSVal) (T : Int)
    (htotal : objGet st "total" = .num T)
    (hcounter : objGet st "promise" = .undefined ∨ ∃ n, objGet st "promise" = .num n) :
    (wrapPromiseInstalled cfg isProd st host (.error E)).1 = .error E
    ∧ objGet (wrapPromiseInstalled cfg isProd st host (.error E)).2.1 "total"
        = .num (T + 1)
    ∧ objGet (wrapPromiseInstalled cfg isProd st host (.error E)).2.1 "promise"
        = .num (counterVal st "promise" + 1)
    ∧ objGet (wrapPromiseInstalled cfg isProd st host (.error E)).2.1 "lastErrorTime"
        = .num host.now := by
  have hst : (wrapPromiseInstalled cfg isProd st host (.error E)).2.1
      = updateErrorStats st "promise" host.now := rfl
  refine ⟨rfl, ?_, ?_, ?_⟩ <;> rw [hst]
  · rw [objGet_updateErrorStats_total _ _ _ (by decide), htotal]
    simp [jsIncrement, jsToNumberOpt]
  · rw [objGet_updateErrorStats_counter _ _ _ (by decide) (by decide)]
    rcases hcounter with hu | ⟨n, hn⟩
    · rw [hu, jsIncrement_jsOr_undefined, counterVal_undefined _ _ hu]; norm_num
    · rw [hn, jsIncrement_jsOr_num, counterVal_num _ _ _ hn]
  · exact objGet_updateErrorStats_lastErrorTime _ _ _

/-- C5, witness: a concrete rejection with reason `"boom"`. -/
theorem wrapPromiseReportsOnce_witness :
    (wrapPromiseInstalled none false initialStatsObj ({ now := 9 } : Host)
        (.error (.str "boom"))).1 = .error (.str "boom")
    ∧ objGet (wrapPromiseInstalled none false initialStatsObj ({ now := 9 } : Host)
        (.error (.str "boom"))).2.1 "total" = .num (0 + 1)
    ∧ objGet (wrapPromiseInstalled none false initialStatsObj ({ now := 9 } : Host)
        (.error (.str "boom"))).2.1 "promise"
        = .num (counterVal initialStatsObj "promise" + 1)
    ∧ objGet (wrapPromiseInstalled none false initialStatsObj ({ now := 9 } : Host)
        (.error (.str "boom"))).2.1 "lastErrorTime" = .num 9 :=
  wrapPromiseReportsOnce none false initialStatsObj { now := 9 } (.str "boom") 0
    rfl (Or.inr ⟨0, rfl⟩)

/-- C6: the boundary operations do throw.  `src/index.js` delegates
`setCustomSender`/`setCustomFormatter` to instance methods `setSender` /
`setFormatter` that the `ErrorMonitor` class never defines (although its own
type declarations advertise them), and delegates `wrapPromise` to the
instance's own `wrapPromise` property, which before `init` is still the
constructor's `null` — each call raises a `TypeError` instead of the claimed
diagnostic no-op, while `reportError` at least resolves to a real method. -/
theorem boundaryOpsThrow :
    indexSetCustomSender
      = .error "TypeError: errorMonitorInstance.setSender is not a function"
    ∧ indexSetCustomFormatter
      = .error "TypeError: errorMonitorInstance.setFormatter is not a function"
    ∧ indexWrapPromisePreInit
      = .error "TypeError: errorMonitorInstance.wrapPromise is not a function"
    ∧ indexReportErrorResolves = .ok () :=
  ⟨rfl, rfl, rfl, rfl⟩

/-- C7: once the gate passes, a configured custom sender is invoked with
the envelope (and the default transport is not); otherwise, with a webhook
address configured, the default transport issues a POST to that address with
a `Content-Type: application/json` header and the exact body
`msgtype = "text"`, `text.content` = the string produced by the configured
formatter if present else by `_formatErrorMessage`, and an empty
`text.mentioned_list`. -/
theorem deliveryWireFormat (cfg : MonitorConfig) (st : StatsObj) (host : Host)
    (info : ErrorInfo) (isProd forceSend : Bool)
    (hGate : forceSend = true ∨ isProd = true ∨ cfg.forceEnable = true) :
    (∀ content, cfg.customSender = none → cfg.webhookUrl ≠ "" →
      formatChoice cfg.customFormatter st projectInfoDefault host info = .ok content →
      sendError (some cfg) isProd st host info forceSend
        = .posted { url := cfg.webhookUrl, method := "POST",
                    contentType := "application/json",
                    body := { msgtype := "text", content := content,
                              mentionedList := [] } })
    ∧ (∀ s, cfg.customSender = some s →
        sendError (some cfg) isProd st host info forceSend = .senderCalled info) := by
  have hgate : (!forceSend && !isProd && !(forceEnableOf (some cfg))) = false := by
    rcases hGate with h | h | h <;> simp [forceEnableOf, h]
  constructor
  · intro content hs hurl hfmt
    unfold sendError
    rw [hgate]
    simp only [Bool.false_eq_true, if_false]
    rw [show customSenderOf (some cfg) = none from hs]
    unfold sendToWebhook
    rw [show webhookUrlOf (some cfg) = cfg.webhookUrl from rfl, if_neg hurl]
    rw [show customFormatterOf (some cfg) = cfg.customFormatter from rfl, hfmt]
  · intro s hs
    unfold sendError
    rw [hgate]
    simp only [Bool.false_eq_true, if_false]
    rw [show customSenderOf (some cfg) = some s from hs]

/-- C7, witness: a forced-enabled configuration with a custom formatter and
no custom sender posts the exact wire shape. -/
theorem deliveryWireFormat_witness :
    sendError
      (some { webhookUrl := "https://x", forceEnable := true,
              customFormatter := some (fun _ => "hello"), customSender := none })
      true initialStatsObj ({ } : Host) ({ } : ErrorInfo) false
      = .posted { url := "https://x", method := "POST",
                  contentType := "application/json",
                  body := { msgtype := "text", content := "hello",
                            mentionedList := [] } } :=
  (deliveryWireFormat
    { webhookUrl := "https://x", forceEnable := true,
      customFormatter := some (fun _ => "hello"), customSender := none }
    initialStatsObj { } { } true false (Or.inr (Or.inl rfl))).1
    "hello" rfl (by simp) rfl

/-- C8, counterexample: the global-error handler does default absent
type-specific fields — a raw `window.onerror` payload with no `lineno` and
no `source` yields an envelope with `lineno = 0` and `source = ""`, not an
omitted (`undefined`) field, contradicting the claim for those fields. -/
theorem globalDefaults_counterexample :
    (handleGlobalError none false initialStatsObj ({ } : Host)
        ({ } : GlobalErrorRaw)).2.1.lineno = JSVal.num 0
    ∧ (handleGlobalError none false initialStatsObj ({ } : Host)
        ({ } : GlobalErrorRaw)).2.1.source = JSVal.str ""
    ∧ JSVal.num 0 ≠ JSVal.undefined := by
  refine ⟨rfl, rfl, by simp⟩

/-- C8 (amended): the API/network optional fields of a `reportError`
envelope (`statusCode`, `statusText`, `responseTime`, `requestData`,
`requestHeaders`, `requestId`, `retryCount`, `networkType`, `isConnected`)
are copied through exactly as read off the raw payload — absent fields stay
`undefined`, never `0` or `""` — and the mini-program handler passes `path`
and `query` through unchanged; but the global-error handler defaults
`source` to `""` and `lineno`/`colno` to `0` through `||` when they are
absent or falsy. -/
theorem envelopeOptionalFields (host : Host) (ty : String)
    (error context : JSVal) (herr : isNullish error = false) :
    (buildReportErrorInfo host ty error context).isOk = true
    ∧ (buildReportErrorInfo host ty error context).map ErrorInfo.statusCode
        = .ok (getFieldD error "statusCode")
    ∧ (buildReportErrorInfo host ty error context).map ErrorInfo.statusText
        = .ok (getFieldD error "statusText")
    ∧ (buildReportErrorInfo host ty error context).map ErrorInfo.responseTime
        = .ok (getFieldD error "responseTime")
    ∧ (buildReportErrorInfo host ty error context).map ErrorInfo.requestData
        = .ok (getFieldD error "requestData")
    ∧ (buildReportErrorInfo host ty error context).map ErrorInfo.requestHeaders
        = .ok (getFieldD error "requestHeaders")
    ∧ (buildReportErrorInfo host ty error context).map ErrorInfo.requestId
        = .ok (getFieldD error "requestId")
    ∧ (buildReportErrorInfo host ty error context).map ErrorInfo.retryCount
        = .ok (getFieldD error "retryCount")
    ∧ (buildReportErrorInfo host ty error context).map ErrorInfo.networkType
        = .ok (getFieldD error "networkType")
    ∧ (buildReportErrorInfo host ty error context).map ErrorInfo.isConnected
        = .ok (getFieldD error "isConnected")
    ∧ (∀ cfg isProd st raw,
        (handleMiniProgramError cfg isProd st host raw).2.1.path = raw.path
        ∧ (handleMiniProgramError cfg isProd st host raw).2.1.query = raw.query)
    ∧ (∀ cfg isProd st raw,
        (handleGlobalError cfg isProd st host raw).2.1.source = jsOr raw.source (.str "")
        ∧ (handleGlobalError cfg isProd st host raw).2.1.lineno = jsOr raw.lineno (.num 0)
        ∧ (handleGlobalError cfg isProd st host raw).2.1.colno = jsOr raw.colno (.num 0)) := by
  have heq := buildReportErrorInfo_eq host ty error context herr
  rw [heq]
  exact ⟨rfl, rfl, rfl, rfl, rfl, rfl, rfl, rfl, rfl, rfl,
    fun cfg isProd st raw => ⟨rfl, rfl⟩,
    fun cfg isProd st raw => ⟨rfl, rfl, rfl⟩⟩

/-- C8, witness: a raw payload carrying only `statusCode` yields an
envelope with that `statusCode` and an `undefined` (omitted) `requestId`;
`path` passes through the mini-program handler. -/
theorem envelopeOptionalFields_witness :
    (buildReportErrorInfo ({ } : Host) "api"
        (.obj [("statusCode", .num 404)]) (.obj [])).map ErrorInfo.statusCode
      = .ok (.num 404)
    ∧ (buildReportErrorInfo ({ } : Host) "api"
        (.obj [("statusCode", .num 404)]) (.obj [])).map ErrorInfo.requestId
      = .ok .undefined
    ∧ (handleMiniProgramError none false initialStatsObj ({ } : Host)
        ({ path := .str "pages/a" } : ErrorInfo)).2.1.path = .str "pages/a" := by
  have h := envelopeOptionalFields ({ } : Host) "api"
    (.obj [("statusCode", .num 404)]) (.obj []) rfl
  obtain ⟨_, h1, _, _, _, _, h6, _, _, _, hmini, _⟩ := h
  exact ⟨h1.trans rfl, h6.trans rfl,
    (hmini none false initialStatsObj { path := .str "pages/a" }).1⟩

theorem serializeError_isOk (v : JSVal) : ∃ r, serializeError v = .ok r := by
  cases v with
  | obj fs =>
      have hstep : serializeError (.obj fs)
          = match jsonStringify (.obj fs) with
            | .ok s => .ok (.str s)
            | .error _ => .ok (.str (jsDisplay (.obj fs))) := rfl
      rw [hstep]
      cases jsonStringify (.obj fs) <;> exact ⟨_, rfl⟩
  | _ => exact ⟨_, rfl⟩

theorem serializeError_eq_val (v : JSVal) :
    serializeError v = .ok (serializeErrorVal v) := by
  obtain ⟨r, hr⟩ := serializeError_isOk v
  rw [hr]
  unfold serializeErrorVal
  rw [hr]

/-- C9: `_serializeError` never throws — every potential throw inside it
(the `JSON.stringify` call) is caught — and whenever structured
serialization of a plain object fails (circular structure), the result
falls back to the string coercion `String(error)`, the non-empty
`"[object Object]"`. -/
theorem serializeNeverThrows :
    (∀ v, serializeError v = .ok (serializeErrorVal v))
    ∧ (∀ fs e, jsonStringify (.obj fs) = .error e →
        serializeError (.obj fs) = .ok (.str "[object Object]")
        ∧ ("[object Object]" : String) ≠ "") := by
  refine ⟨serializeError_eq_val, ?_⟩
  intro fs e h
  refine ⟨?_, by simp⟩
  simp [serializeError, isObjectNonNull, isObjectType, h, jsDisplay]

/-- C9, witness: a concrete object with a circular reference. -/
theorem serializeNeverThrows_witness :
    serializeError (.obj [("self", JSVal.cyc)]) = .ok (.str "[object Object]")
    ∧ ("[object Object]" : String) ≠ "" :=
  serializeNeverThrows.2 [("self", JSVal.cyc)]
    "TypeError: Converting circular structure to JSON" (by rfl)

theorem sendRun_spec (cfg : Option MonitorConfig) (isProd : Bool)
    (tok : Nat → Bool) (hGate : isProd = true ∨ forceEnableOf cfg = true)
    (hFail : ∀ n, tok n = false) :
    ∀ k rc, effMaxRetries cfg = rc + k →
      sendErrorToWebhookRun cfg isProd true tok false rc
        = (k + 1, (List.range k).map (fun i => effRetryDelay cfg * (rc + 1 + i))) := by
  have hg : (!false && !isProd && !forceEnableOf cfg) = false := by
    rcases hGate with h | h <;> simp [h]
  intro k
  induction k with
  | zero =>
      intro rc hrc
      unfold sendErrorToWebhookRun
      rw [hg]
      simp [hFail rc, hrc]
  | succ k ih =>
      intro rc hrc
      unfold sendErrorToWebhookRun
      rw [hg]
      simp only [Bool.false_eq_true, if_false, Bool.not_true, hFail rc]
      rw [dif_pos (by omega)]
      rw [ih (rc + 1) (by omega)]
      simp only [Prod.mk.injEq]
      refine ⟨by omega, ?_⟩
      rw [List.range_succ_eq_map, List.map_cons, List.map_map]
      refine congrArg₂ List.cons (by norm_num) ?_
      apply List.map_congr_left
      intro i _
      simp only [Function.comp, Nat.succ_eq_add_one]
      congr 1
      omega

/-- C1 (amended): in the part_003 retrying pipeline, when the gate passes
without relying on `forceSend` (production, or `forceEnable` on), the
`VITE_WEBHOOK` address is set, the transport fails on every attempt, and
`maxRetries = m ≥ 1`, the transport is invoked exactly `m + 1` times, the
Nth retry is scheduled `effRetryDelay * N` milliseconds after the (N−1)th
failure — no earlier than `retryDelay * N` — and after the final failure no
further attempt is scheduled.  (`m = 0` is excluded: `maxRetries || 3`
treats a configured 0 as absent, see the counterexample.) -/
theorem retryBound (c : MonitorConfig) (isProd : Bool) (tok : Nat → Bool)
    (hGate : isProd = true ∨ c.forceEnable = true)
    (hFail : ∀ n, tok n = false) (hm : 1 ≤ c.maxRetries) :
    sendErrorToWebhookRun (some c) isProd true tok false 0
      = (c.maxRetries + 1,
         (List.range c.maxRetries).map (fun i => effRetryDelay (some c) * (i + 1)))
    ∧ ∀ i, c.retryDelay * (i + 1) ≤ effRetryDelay (some c) * (i + 1) := by
  constructor
  · have hmax : effMaxRetries (some c) = 0 + c.maxRetries := by
      simp only [effMaxRetries]
      rw [if_neg (by omega)]
      omega
    have h := sendRun_spec (some c) isProd tok
      (by simpa [forceEnableOf] using hGate) hFail c.maxRetries 0 hmax
    rw [h]
    simp only [Prod.mk.injEq, true_and, and_true, eq_self_iff_true]
    apply List.map_congr_left
    intro i _
    congr 1
    omega
  · intro i
    have hd : c.retryDelay ≤ effRetryDelay (some c) := by
      simp only [effRetryDelay]
      split <;> omega
    exact Nat.mul_le_mul_right _ hd

/-- C1, counterexample: with `maxRetries = 0` the claim demands exactly one
attempt, but `this.config?.maxRetries || 3` reads the configured 0 as
absent, so an always-failing transport is invoked 4 times (3 retries). -/
theorem retryBound_counterexample :
    (sendErrorToWebhookRun
        (some { maxRetries := 0, retryDelay := 1000, forceEnable := true })
        true true (fun _ => false) false 0).1 = 4
    ∧ 4 ≠ 0 + 1 := by
  have h := sendRun_spec
    (some { maxRetries := 0, retryDelay := 1000, forceEnable := true })
    true (fun _ => false) (Or.inl rfl) (fun _ => rfl) 3 0
    (by simp [effMaxRetries])
  rw [h]
  exact ⟨rfl, by omega⟩

/-- C1, witness: `maxRetries = 2`, `retryDelay = 100`, always-failing
transport: 3 attempts, retries after 100 and 200 ms. -/
theorem retryBound_witness :
    sendErrorToWebhookRun
        (some { maxRetries := 2, retryDelay := 100, forceEnable := true })
        true true (fun _ => false) false 0
      = (2 + 1, (List.range 2).map
          (fun i => effRetryDelay
            (some { maxRetries := 2, retryDelay := 100, forceEnable := true }) * (i + 1)))
    ∧ 100 * (0 + 1) ≤ effRetryDelay
        (some { maxRetries := 2, retryDelay := 100, forceEnable := true }) * (0 + 1) := by
  have h := retryBound { maxRetries := 2, retryDelay := 100, forceEnable := true }
    true (fun _ => false) (Or.inl rfl) (fun _ => rfl) (by decide)
  exact ⟨h.1, h.2 0⟩

/-- C10, witness: the tag `"weird"` at a concrete run. -/
theorem resetDropsUnknownCounter_witness :
    hasCounter (updateErrorStats initialStatsObj "weird" 3) "weird" = true
    ∧ resetErrorStats =
        [("total", .num 0), ("global", .num 0), ("promise", .num 0),
         ("console", .num 0), ("miniProgram", .num 0), ("api", .num 0),
         ("network", .num 0), ("manual", .num 0), ("lastErrorTime", .null)]
    ∧ hasCounter resetErrorStats "weird" = false
    ∧ hasCounter (applyRecords [("manual", 7)] resetErrorStats) "weird" = false :=
  resetDropsUnknownCounter initialStatsObj "weird" 3 [("manual", 7)]
    (by simp [errorTypeKeys]) (by simp [reservedStatsKeys])
    (by simp [errorTypeKeys])

end UniappErrorMonitor
